import Mathlib

/-!
Shallow embedding of the NRF24 radio driver (NRF24.py) for verification.

The driver talks to the transceiver chip through two collaborator
primitives: a full-duplex SPI byte exchange (pigpio spi_xfer, modelled as
an oracle function from request bytes to reply bytes) and a single
chip-enable GPIO line.  Every observable effect of a driver method is a
sequence of such primitive operations; we record them as a trace of
`Action` values.  The driver's cached configuration fields (Python
instance attributes) are modelled by `DriverState`, passed explicitly.

Python byte values are modelled as `Nat`; the payload-size field, which
the source stores as an int ranging over -1 (ack-payload sentinel),
0 (dynamic) and 1..32 (fixed), is modelled as `Int`.
-/

namespace NRF24

/-! ### Chip constants (copied from the constant block of NRF24.py) -/

def RF24_1MBPS : Nat := 0
def RF24_2MBPS : Nat := 1
def RF24_250KBPS : Nat := 2

def ACK_PAYLOAD : Int := -1
def DYNAMIC_PAYLOAD : Int := 0
def MIN_PAYLOAD : Int := 1
def MAX_PAYLOAD : Int := 32

def R_REGISTER : Nat := 0x00
def W_REGISTER : Nat := 0x20

def R_RX_PL_WID : Nat := 0x60
def R_RX_PAYLOAD : Nat := 0x61

def W_TX_PAYLOAD : Nat := 0xA0
def W_ACK_PAYLOAD : Nat := 0xA8

def FLUSH_TX : Nat := 0xE1
def FLUSH_RX : Nat := 0xE2

def NOP : Nat := 0xFF

def CONFIG : Nat := 0x00
def SETUP_AW : Nat := 0x03
def SETUP_RETR : Nat := 0x04
def RF_CH : Nat := 0x05
def RF_SETUP : Nat := 0x06
def STATUS : Nat := 0x07
def RX_ADDR_P0 : Nat := 0x0A
def RX_ADDR_P1 : Nat := 0x0B
def TX_ADDR : Nat := 0x10
def RX_PW_P0 : Nat := 0x11
def RX_PW_P1 : Nat := 0x12
def FIFO_STATUS : Nat := 0x17
def DYNPD : Nat := 0x1C
def FEATURE : Nat := 0x1D

def EN_CRC : Nat := 1 <<< 3
def CRCO : Nat := 1 <<< 2
def PWR_UP : Nat := 1 <<< 1
def PRIM_RX : Nat := 1 <<< 0

def RF_DR_LOW : Nat := 1 <<< 5
def RF_DR_HIGH : Nat := 1 <<< 3

def RX_DR : Nat := 1 <<< 6
def TX_DS : Nat := 1 <<< 5
def MAX_RT : Nat := 1 <<< 4
def TX_FULL : Nat := 1 <<< 0

def FRX_EMPTY : Nat := 1 <<< 0

def DPL_P1 : Nat := 1 <<< 1
def DPL_P0 : Nat := 1 <<< 0

def EN_DPL : Nat := 1 <<< 2
def EN_ACK_PAY : Nat := 1 <<< 1

/-! ### Driver state and primitive-operation traces -/

/-- The driver's cached configuration fields: the Python instance
attributes _channel, _payload_size, _address_width, _crc_bytes (already
mapped to the CONFIG-register bit value 0 or CRCO), _padding and
_power_tx. -/
structure DriverState where
  channel : Nat
  payload_size : Int
  address_width : Nat
  crc_bytes : Nat
  padding : Nat
  power_tx : Nat
  deriving Repr, DecidableEq

/-- A primitive operation on the collaborators: setting the chip-enable
GPIO line to a level (pi.write in set_ce / unset_ce), or one full-duplex
SPI exchange of a byte list (pi.spi_xfer in _nrf_xfer). -/
inductive Action where
  | ce (level : Nat)
  | xfer (data : List Nat)
  deriving Repr, DecidableEq

/-- The request frame of _nrf_write_reg: opcode (W_REGISTER | reg)
followed by the argument bytes. -/
def writeRegAct (reg : Nat) (args : List Nat) : Action :=
  .xfer ((W_REGISTER ||| reg) :: args)

/-- The request frame of _nrf_read_reg: the register address followed by
count zero bytes; the reply's bytes after the status byte are the
register contents. -/
def readRegAct (reg : Nat) (count : Nat) : Action :=
  .xfer (reg :: List.replicate count 0)

/-! ### _make_fixed_width and the configuration setters -/

/-- NRF24._make_fixed_width: truncate msg to width when it is at least
width long, otherwise extend it with copies of pad up to width.
(The Python string branch maps characters through ord before this;
we model the byte-list input.) -/
def make_fixed_width (msg : List Nat) (width : Nat) (pad : Nat) : List Nat :=
  if width ≤ msg.length then
    msg.take width
  else
    msg ++ List.replicate (width - msg.length) pad

/-- NRF24._configure_payload: the register writes it performs, as a
function of the cached payload size. -/
def configure_payload (p : Int) : List Action :=
  if MIN_PAYLOAD ≤ p then
    [writeRegAct RX_PW_P0 [p.toNat], writeRegAct RX_PW_P1 [p.toNat],
     writeRegAct DYNPD [0], writeRegAct FEATURE [0]]
  else
    writeRegAct DYNPD [DPL_P0 ||| DPL_P1] ::
      (if p = ACK_PAYLOAD then
        [writeRegAct FEATURE [EN_DPL ||| EN_ACK_PAY]]
      else
        [writeRegAct FEATURE [EN_DPL]])

/-- NRF24.set_payload_size: assert the range, cache the size, then run
_configure_payload.  The Bool records whether the assert passed; a
failed assert raises before any mutation or bus access. -/
def set_payload_size (st : DriverState) (payload : Int) :
    DriverState × List Action × Bool :=
  if ACK_PAYLOAD ≤ payload ∧ payload ≤ MAX_PAYLOAD then
    ({ st with payload_size := payload }, configure_payload payload, true)
  else
    (st, [], false)

/-- NRF24.set_channel: assert 0 <= channel <= 125, cache it, write RF_CH. -/
def set_channel (st : DriverState) (channel : Nat) :
    DriverState × List Action × Bool :=
  if channel ≤ 125 then
    ({ st with channel := channel }, [writeRegAct RF_CH [channel]], true)
  else
    (st, [], false)

/-- NRF24.set_padding for an integer argument: ord(pad) raises TypeError,
so the except branch stores pad into _padding unconditionally, and only
then does the assert check the range.  An out-of-range pad therefore
fails with the cached padding already overwritten. -/
def set_padding (st : DriverState) (pad : Nat) :
    DriverState × List Action × Bool :=
  ({ st with padding := pad }, [], decide (pad ≤ 255))

/-- NRF24.set_address_bytes: assert 3 <= n <= 5, cache it, write SETUP_AW. -/
def set_address_bytes (st : DriverState) (address_bytes : Nat) :
    DriverState × List Action × Bool :=
  if 3 ≤ address_bytes ∧ address_bytes ≤ 5 then
    ({ st with address_width := address_bytes },
     [writeRegAct SETUP_AW [address_bytes - 2]], true)
  else
    (st, [], false)

/-- NRF24.set_crc_bytes: assert 1 <= n <= 2, then cache the CONFIG-register
bit value (0 for one CRC byte, CRCO for two).  No bus access at all. -/
def set_crc_bytes (st : DriverState) (crc_bytes : Nat) :
    DriverState × List Action × Bool :=
  if 1 ≤ crc_bytes ∧ crc_bytes ≤ 2 then
    ({ st with crc_bytes := if crc_bytes = 1 then 0 else CRCO }, [], true)
  else
    (st, [], false)

/-- The register value computed by NRF24.set_data_rate from the current
RF_SETUP value: clear RF_DR_LOW and RF_DR_HIGH (the Python
value &= ~(RF_DR_LOW | RF_DR_HIGH) on a non-negative int), then set
RF_DR_LOW for 250 kbps or RF_DR_HIGH for 2 Mbps. -/
def set_data_rate_value (rate : Nat) (value : Nat) : Nat :=
  let v := Nat.ldiff value (RF_DR_LOW ||| RF_DR_HIGH)
  if rate = RF24_250KBPS then v ||| RF_DR_LOW
  else if rate = RF24_2MBPS then v ||| RF_DR_HIGH
  else v

/-- NRF24.set_data_rate: assert the range, read RF_SETUP, modify the two
rate bits, write the value back.  bus is the SPI oracle; the byte after
the status byte of the read reply is the current register value. -/
def set_data_rate (st : DriverState) (rate : Nat)
    (bus : List Nat → List Nat) : DriverState × List Action × Bool :=
  if rate ≤ RF24_250KBPS then
    let value := ((bus (RF_SETUP :: List.replicate 1 0)).drop 1).getD 0 0
    (st, [readRegAct RF_SETUP 1,
          writeRegAct RF_SETUP [set_data_rate_value rate value]], true)
  else
    (st, [], false)

/-! ### Mode state machine -/

/-- NRF24.power_up_tx: deassert chip enable, set the transmitting flag,
write CONFIG with EN_CRC, the cached CRC-width bit and PWR_UP, clear the
three one-shot status bits, assert chip enable. -/
def power_up_tx (st : DriverState) : DriverState × List Action :=
  ({ st with power_tx := 1 },
   [Action.ce 0,
    writeRegAct CONFIG [EN_CRC ||| st.crc_bytes ||| PWR_UP],
    writeRegAct STATUS [RX_DR ||| TX_DS ||| MAX_RT],
    Action.ce 1])

/-- NRF24.power_up_rx: as power_up_tx but clearing the transmitting flag
and adding PRIM_RX to the CONFIG value. -/
def power_up_rx (st : DriverState) : DriverState × List Action :=
  ({ st with power_tx := 0 },
   [Action.ce 0,
    writeRegAct CONFIG [EN_CRC ||| st.crc_bytes ||| PWR_UP ||| PRIM_RX],
    writeRegAct STATUS [RX_DR ||| TX_DS ||| MAX_RT],
    Action.ce 1])

/-- NRF24.power_down: deassert chip enable and write CONFIG with EN_CRC
and the cached CRC-width bit (PWR_UP cleared). -/
def power_down (st : DriverState) : DriverState × List Action :=
  (st, [Action.ce 0, writeRegAct CONFIG [EN_CRC ||| st.crc_bytes]])

/-- NRF24.is_sending: when the transmitting flag is set, poll the status
word (status is the byte the NOP probe returned); on TX_DS or MAX_RT run
power_up_rx and report false, otherwise report true.  When the flag is
clear, report false without touching the bus. -/
def is_sending (st : DriverState) (status : Nat) : DriverState × Bool :=
  if 0 < st.power_tx then
    if status &&& (TX_DS ||| MAX_RT) ≠ 0 then
      ((power_up_rx st).1, false)
    else
      (st, true)
  else
    (st, false)

/-! ### Payload I/O and address setters -/

/-- NRF24.send for a byte-list payload: probe the status word (status is
the NOP reply byte), flush the TX FIFO when TX_FULL or MAX_RT is set, in
fixed payload mode pad/truncate the data with _make_fixed_width, write
the W_TX_PAYLOAD command frame, then power_up_tx. -/
def send (st : DriverState) (status : Nat) (data : List Nat) :
    DriverState × List Action :=
  let flushPart : List Action :=
    if status &&& (TX_FULL ||| MAX_RT) ≠ 0 then [Action.xfer [FLUSH_TX]] else []
  let payload : List Nat :=
    if MIN_PAYLOAD ≤ st.payload_size then
      make_fixed_width data st.payload_size.toNat st.padding
    else
      data
  let (st2, putr) := power_up_tx st
  (st2,
   Action.xfer [NOP] :: flushPart ++
     Action.xfer (W_TX_PAYLOAD :: payload) :: putr)

/-- NRF24.set_local_address: pad/truncate the address to the configured
width, then write RX_ADDR_P1 bracketed by chip-enable low/high. -/
def set_local_address (st : DriverState) (address : List Nat) : List Action :=
  let addr := make_fixed_width address st.address_width st.padding
  [Action.ce 0, writeRegAct RX_ADDR_P1 addr, Action.ce 1]

/-- NRF24.set_remote_address: pad/truncate the address to the configured
width, then write TX_ADDR and RX_ADDR_P0 bracketed by chip-enable
low/high. -/
def set_remote_address (st : DriverState) (raddr : List Nat) : List Action :=
  let addr := make_fixed_width raddr st.address_width st.padding
  [Action.ce 0, writeRegAct TX_ADDR addr, writeRegAct RX_ADDR_P0 addr,
   Action.ce 1]

/-- NRF24.get_payload: in dynamic mode probe the payload width with
R_RX_PL_WID (byte 1 of the reply), in fixed mode use the cached size;
read that many bytes with the R_RX_PAYLOAD command; clear RX_DR in
STATUS bracketed by chip-enable low/high.  Returns the received bytes
and the trace.  bus is the SPI oracle. -/
def get_payload (st : DriverState) (bus : List Nat → List Nat) :
    List Nat × List Action :=
  let (bytes_count, probePart) :=
    if st.payload_size < MIN_PAYLOAD then
      ((bus [R_RX_PL_WID, 0]).getD 1 0, [Action.xfer [R_RX_PL_WID, 0]])
    else
      (st.payload_size.toNat, [])
  let req := R_RX_PAYLOAD :: List.replicate bytes_count 0
  ((bus req).drop 1,
   probePart ++
     [Action.xfer req, Action.ce 0, writeRegAct STATUS [RX_DR], Action.ce 1])

/-! ### Register-file semantics of a trace

A write-register exchange (opcode 0x20 | reg with reg in 0x00-0x1F,
followed by at least one value byte) overwrites that register's
contents; every other action leaves the register file unchanged. -/

/-- One step of the register file under a primitive operation. -/
def applyAction (regs : Nat → List Nat) : Action → (Nat → List Nat)
  | .ce _ => regs
  | .xfer [] => regs
  | .xfer (op :: args) =>
    if W_REGISTER ≤ op ∧ op < W_REGISTER + 32 ∧ args ≠ [] then
      fun r => if r = op - W_REGISTER then args else regs r
    else
      regs

/-- Register file after a whole trace. -/
def applyTrace (regs : Nat → List Nat) (tr : List Action) : Nat → List Nat :=
  tr.foldl applyAction regs

/-- Driver state and register file after a sequence of set_payload_size
calls. -/
def runPayloadSizes (st : DriverState) (regs : Nat → List Nat) :
    List Int → DriverState × (Nat → List Nat)
  | [] => (st, regs)
  | p :: ps =>
    let r := set_payload_size st p
    runPayloadSizes r.1 (applyTrace regs r.2.1) ps

/-- The DYNPD byte _configure_payload writes for a given payload size. -/
def dynpdFor (p : Int) : Nat :=
  if MIN_PAYLOAD ≤ p then 0 else DPL_P0 ||| DPL_P1

/-- The FEATURE byte _configure_payload writes for a given payload size. -/
def featureFor (p : Int) : Nat :=
  if MIN_PAYLOAD ≤ p then 0
  else if p = ACK_PAYLOAD then EN_DPL ||| EN_ACK_PAY
  else EN_DPL

/-- A concrete driver state matching the constructor defaults of NRF24.py
(channel 76, fixed payload size 32, 5 address bytes, two CRC bytes so
the cached bit is CRCO, padding byte 32, not transmitting). -/
def st0 : DriverState :=
  { channel := 76, payload_size := 32, address_width := 5,
    crc_bytes := CRCO, padding := 32, power_tx := 0 }

/-! ### Helper lemmas -/

/-- Both branches of _make_fixed_width are one identity: the first width
bytes of the message followed by enough padding bytes. -/
lemma make_fixed_width_eq (msg : List Nat) (width pad : Nat) :
    make_fixed_width msg width pad =
      msg.take width ++ List.replicate (width - msg.length) pad := by
  unfold make_fixed_width
  split
  · next h =>
    rw [Nat.sub_eq_zero_of_le h]
    simp
  · next h =>
    rw [List.take_of_length_le (by omega)]

lemma make_fixed_width_length (msg : List Nat) (width pad : Nat) :
    (make_fixed_width msg width pad).length = width := by
  rw [make_fixed_width_eq]
  simp
  omega

/-! ### Claim theorems -/

/-- C1: with a fixed payload size s in [1,32] cached, send writes a
W_TX_PAYLOAD frame whose payload is exactly s bytes: the data padded at
the end with the configured padding byte when shorter than s, and
truncated to its first s bytes when longer. -/
theorem send_fixed_payload_exact_width (st : DriverState) (status : Nat)
    (data : List Nat) (s : Nat) (hs : st.payload_size = (s : Int))
    (h1 : 1 ≤ s) (h2 : s ≤ 32) :
    Action.xfer (W_TX_PAYLOAD :: make_fixed_width data s st.padding) ∈
      (send st status data).2 ∧
    (make_fixed_width data s st.padding).length = s ∧
    (data.length ≤ s →
      make_fixed_width data s st.padding =
        data ++ List.replicate (s - data.length) st.padding) ∧
    (s ≤ data.length →
      make_fixed_width data s st.padding = data.take s) := by
  refine ⟨?_, make_fixed_width_length data s st.padding, ?_, ?_⟩
  · have hfix : MIN_PAYLOAD ≤ st.payload_size := by
      rw [hs]; unfold MIN_PAYLOAD; exact_mod_cast h1
    have htn : st.payload_size.toNat = s := by rw [hs]; simp
    simp only [send, hfix, if_pos, htn]
    simp
  · intro hle
    rw [make_fixed_width_eq, List.take_of_length_le hle]
  · intro hge
    rw [make_fixed_width_eq, Nat.sub_eq_zero_of_le hge]
    simp

/-- C3: power_up_tx and power_up_rx each perform exactly,
in order: chip-enable low, a CONFIG write whose byte has the CRC-enable
bit, the cached CRC-width bit, the power-up bit (and for rx the
primary-receive bit, for tx not), a STATUS write of the three one-shot
bits RX_DR, TX_DS and MAX_RT, then chip-enable high — and nothing else. -/
theorem power_up_trace_order (st : DriverState)
    (hcrc : st.crc_bytes = 0 ∨ st.crc_bytes = CRCO) :
    (power_up_tx st).2 =
      [Action.ce 0, writeRegAct CONFIG [EN_CRC ||| st.crc_bytes ||| PWR_UP],
       writeRegAct STATUS [RX_DR ||| TX_DS ||| MAX_RT], Action.ce 1] ∧
    (power_up_rx st).2 =
      [Action.ce 0,
       writeRegAct CONFIG [EN_CRC ||| st.crc_bytes ||| PWR_UP ||| PRIM_RX],
       writeRegAct STATUS [RX_DR ||| TX_DS ||| MAX_RT], Action.ce 1] ∧
    (EN_CRC ||| st.crc_bytes ||| PWR_UP).testBit 3 = true ∧
    (EN_CRC ||| st.crc_bytes ||| PWR_UP).testBit 1 = true ∧
    ((EN_CRC ||| st.crc_bytes ||| PWR_UP).testBit 2 = true ↔
      st.crc_bytes = CRCO) ∧
    (EN_CRC ||| st.crc_bytes ||| PWR_UP).testBit 0 = false ∧
    (EN_CRC ||| st.crc_bytes ||| PWR_UP ||| PRIM_RX).testBit 3 = true ∧
    (EN_CRC ||| st.crc_bytes ||| PWR_UP ||| PRIM_RX).testBit 1 = true ∧
    ((EN_CRC ||| st.crc_bytes ||| PWR_UP ||| PRIM_RX).testBit 2 = true ↔
      st.crc_bytes = CRCO) ∧
    (EN_CRC ||| st.crc_bytes ||| PWR_UP ||| PRIM_RX).testBit 0 = true := by
  rcases hcrc with h | h <;> rw [h] <;>
    exact ⟨by simp [power_up_tx, h], by simp [power_up_rx, h],
      by decide, by decide, by decide, by decide, by decide, by decide,
      by decide, by decide⟩

/-- C4: is_sending immediately after power_up_rx reports false; and when
the transmitting flag is set and the polled status has TX_DS or MAX_RT,
is_sending clears the flag (by power_up_rx) and reports false, so the
next is_sending call also reports false. -/
theorem is_sending_auto_rx (st : DriverState) (status status2 : Nat) :
    (is_sending (power_up_rx st).1 status).2 = false ∧
    (0 < st.power_tx → status &&& (TX_DS ||| MAX_RT) ≠ 0 →
      (is_sending st status).2 = false ∧
      (is_sending st status).1.power_tx = 0 ∧
      (is_sending (is_sending st status).1 status2).2 = false) := by
  constructor
  · simp [is_sending, power_up_rx]
  · intro hp hstatus
    simp [is_sending, hp, hstatus, power_up_rx]

/-- C6: both address setters deassert chip enable, write the dependent
address registers (RX_ADDR_P1 for the local setter; TX_ADDR then
RX_ADDR_P0 for the remote setter) and only then reassert chip enable;
the written address is the caller's address truncated to the configured
width and padded at the end with the padding byte. -/
theorem address_setters_bracketed (st : DriverState)
    (address raddr : List Nat) :
    set_local_address st address =
      [Action.ce 0,
       writeRegAct RX_ADDR_P1 (make_fixed_width address st.address_width st.padding),
       Action.ce 1] ∧
    set_remote_address st raddr =
      [Action.ce 0,
       writeRegAct TX_ADDR (make_fixed_width raddr st.address_width st.padding),
       writeRegAct RX_ADDR_P0 (make_fixed_width raddr st.address_width st.padding),
       Action.ce 1] ∧
    (make_fixed_width address st.address_width st.padding).length =
      st.address_width ∧
    make_fixed_width address st.address_width st.padding =
      address.take st.address_width ++
        List.replicate (st.address_width - address.length) st.padding := by
  exact ⟨rfl, rfl, make_fixed_width_length .., make_fixed_width_eq ..⟩

lemma testBit_forty (i : Nat) :
    Nat.testBit 40 i = (decide (i = 3) || decide (i = 5)) := by
  have h : (40 : Nat) = 2 ^ 3 ||| 2 ^ 5 := by decide
  rw [h, Nat.testBit_lor, Nat.testBit_two_pow, Nat.testBit_two_pow]
  simp [eq_comm]

/-- C5: set_data_rate computes the new RF_SETUP byte from the current one
read off the bus: every bit other than the two rate bits (bit 3, RF_DR_HIGH,
and bit 5, RF_DR_LOW) is preserved, bit 5 is set exactly for 250 kbps and
bit 3 exactly for 2 Mbps (both clear for 1 Mbps), and the trace is the
read followed by the write of that value. -/
theorem set_data_rate_rmw (rate old : Nat) (hr : rate ≤ 2) :
    (∀ i, i ≠ 3 → i ≠ 5 →
      (set_data_rate_value rate old).testBit i = old.testBit i) ∧
    (set_data_rate_value rate old).testBit 5 = decide (rate = RF24_250KBPS) ∧
    (set_data_rate_value rate old).testBit 3 = decide (rate = RF24_2MBPS) ∧
    (∀ (st : DriverState) (bus : List Nat → List Nat),
      (set_data_rate st rate bus).2.1 =
        [readRegAct RF_SETUP 1,
         writeRegAct RF_SETUP
           [set_data_rate_value rate
             (((bus (RF_SETUP :: List.replicate 1 0)).drop 1).getD 0 0)]]) := by
  have h32 : ∀ i, Nat.testBit 32 i = decide (i = 5) := by
    intro i
    have h : (32 : Nat) = 2 ^ 5 := by norm_num
    rw [h, Nat.testBit_two_pow]
    simp [eq_comm]
  have h8 : ∀ i, Nat.testBit 8 i = decide (i = 3) := by
    intro i
    have h : (8 : Nat) = 2 ^ 3 := by norm_num
    rw [h, Nat.testBit_two_pow]
    simp [eq_comm]
  have hval : set_data_rate_value rate old =
      if rate = 2 then Nat.ldiff old 40 ||| 32
      else if rate = 1 then Nat.ldiff old 40 ||| 8
      else Nat.ldiff old 40 := by
    unfold set_data_rate_value RF24_250KBPS RF24_2MBPS RF_DR_LOW RF_DR_HIGH
    have e1 : (1 <<< 5 ||| 1 <<< 3 : Nat) = 40 := by decide
    have e2 : (1 <<< 5 : Nat) = 32 := by decide
    have e3 : (1 <<< 3 : Nat) = 8 := by decide
    rw [e1, e2, e3]
  refine ⟨?_, ?_, ?_, ?_⟩
  · intro i h3 h5
    rw [hval]
    interval_cases rate <;>
      simp [Nat.testBit_lor, Nat.testBit_ldiff, testBit_forty, h32, h8, h3, h5]
  · rw [hval]
    unfold RF24_250KBPS
    interval_cases rate <;>
      simp [Nat.testBit_lor, Nat.testBit_ldiff, testBit_forty, h32, h8]
  · rw [hval]
    unfold RF24_2MBPS
    interval_cases rate <;>
      simp [Nat.testBit_lor, Nat.testBit_ldiff, testBit_forty, h32, h8]
  · intro st bus
    simp [set_data_rate, hr, RF24_250KBPS]

/-- C7: get_payload in dynamic mode issues the R_RX_PL_WID probe before
the R_RX_PAYLOAD read and returns exactly as many bytes as the probe
reported; in fixed mode it reads and returns exactly the configured
payload size.  The hypothesis states that the SPI bus is full duplex:
every reply has the length of its request. -/
theorem get_payload_width (st : DriverState) (bus : List Nat → List Nat)
    (hbus : ∀ l, (bus l).length = l.length) :
    (st.payload_size < MIN_PAYLOAD →
      (get_payload st bus).1.length = (bus [R_RX_PL_WID, 0]).getD 1 0 ∧
      (get_payload st bus).2 =
        Action.xfer [R_RX_PL_WID, 0] ::
        Action.xfer (R_RX_PAYLOAD ::
            List.replicate ((bus [R_RX_PL_WID, 0]).getD 1 0) 0) ::
        [Action.ce 0, writeRegAct STATUS [RX_DR], Action.ce 1]) ∧
    (∀ s : Nat, st.payload_size = (s : Int) → MIN_PAYLOAD ≤ st.payload_size →
      (get_payload st bus).1.length = s ∧
      (get_payload st bus).2 =
        [Action.xfer (R_RX_PAYLOAD :: List.replicate s 0),
         Action.ce 0, writeRegAct STATUS [RX_DR], Action.ce 1]) := by
  constructor
  · intro hdyn
    have hlt : ¬ MIN_PAYLOAD ≤ st.payload_size := not_le.mpr hdyn
    constructor
    · simp [get_payload, hdyn, not_le.mp, hlt, hbus]
    · simp [get_payload, hdyn, hlt]
  · intro s hs hfix
    have hlt : ¬ st.payload_size < MIN_PAYLOAD := not_lt.mpr hfix
    have htn : st.payload_size.toNat = s := by rw [hs]; simp
    constructor
    · simp [get_payload, hlt, htn, hbus]
    · simp [get_payload, hlt, htn]

/-- C10: set_crc_bytes performs no bus transfer and no chip-enable
change (empty trace); it only replaces the cached CRC-width bit, mapping
1 byte to 0 and 2 bytes to CRCO; and the CONFIG byte written by
power_down, power_up_rx and power_up_tx is built from that cached bit,
so the new width reaches the chip at the next of those calls. -/
theorem set_crc_bytes_cached_only (st : DriverState) (n : Nat)
    (h1 : 1 ≤ n) (h2 : n ≤ 2) :
    (set_crc_bytes st n).2.1 = [] ∧
    (set_crc_bytes st n).1 =
      { st with crc_bytes := if n = 1 then 0 else CRCO } ∧
    (power_down (set_crc_bytes st n).1).2 =
      [Action.ce 0,
       writeRegAct CONFIG [EN_CRC ||| (if n = 1 then 0 else CRCO)]] ∧
    (power_up_rx (set_crc_bytes st n).1).2.get? 1 =
      some (writeRegAct CONFIG
        [EN_CRC ||| (if n = 1 then 0 else CRCO) ||| PWR_UP ||| PRIM_RX]) ∧
    (power_up_tx (set_crc_bytes st n).1).2.get? 1 =
      some (writeRegAct CONFIG
        [EN_CRC ||| (if n = 1 then 0 else CRCO) ||| PWR_UP]) := by
  have hv : 1 ≤ n ∧ n ≤ 2 := ⟨h1, h2⟩
  refine ⟨by simp [set_crc_bytes, hv], by simp [set_crc_bytes, hv], ?_, ?_, ?_⟩ <;>
    simp [set_crc_bytes, hv, power_down, power_up_rx, power_up_tx]

lemma applyAction_writeReg (regs : Nat → List Nat) (reg : Nat) (v : List Nat)
    (hreg : reg < 32) (hv : v ≠ []) :
    applyAction regs (writeRegAct reg v) =
      fun r => if r = reg then v else regs r := by
  have key : ∀ r < 32, (W_REGISTER ||| r : Nat) = W_REGISTER + r := by decide
  show applyAction regs (.xfer ((W_REGISTER ||| reg) :: v)) = _
  rw [key reg hreg]
  show (if W_REGISTER ≤ W_REGISTER + reg ∧ W_REGISTER + reg < W_REGISTER + 32 ∧ v ≠ []
        then fun r => if r = W_REGISTER + reg - W_REGISTER then v else regs r
        else regs) = _
  rw [if_pos ⟨Nat.le_add_right _ _, by omega, hv⟩]
  funext r
  rw [Nat.add_sub_cancel_left]

lemma applyTrace_configure_payload (regs : Nat → List Nat) (p : Int) :
    applyTrace regs (configure_payload p) DYNPD = [dynpdFor p] ∧
    applyTrace regs (configure_payload p) FEATURE = [featureFor p] := by
  by_cases h1 : MIN_PAYLOAD ≤ p
  · simp [configure_payload, dynpdFor, featureFor, applyTrace, h1,
      applyAction_writeReg, RX_PW_P0, RX_PW_P1, DYNPD, FEATURE]
  · by_cases h2 : p = ACK_PAYLOAD
    · have hle : ¬ MIN_PAYLOAD ≤ ACK_PAYLOAD := by decide
      simp [configure_payload, dynpdFor, featureFor, applyTrace, h1, h2, hle,
        applyAction_writeReg, DYNPD, FEATURE]
    · simp [configure_payload, dynpdFor, featureFor, applyTrace, h1, h2,
        applyAction_writeReg, DYNPD, FEATURE]

/-- C2: after any sequence of set_payload_size calls with valid
arguments, the contents of the DYNPD and FEATURE registers are exactly
those determined by the final call alone: a fixed size leaves 0 in both,
dynamic leaves the pipe-0/pipe-1 bitmap and EN_DPL, and the ack sentinel
leaves the bitmap and EN_DPL with EN_ACK_PAY; every earlier mode's bits
are overwritten. -/
theorem payload_mode_last_call_wins (st : DriverState)
    (regs : Nat → List Nat) (ps : List Int) (hne : ps ≠ [])
    (hv : ∀ p ∈ ps, ACK_PAYLOAD ≤ p ∧ p ≤ MAX_PAYLOAD) :
    (runPayloadSizes st regs ps).2 DYNPD = [dynpdFor (ps.getLast hne)] ∧
    (runPayloadSizes st regs ps).2 FEATURE = [featureFor (ps.getLast hne)] := by
  induction ps generalizing st regs with
  | nil => exact absurd rfl hne
  | cons p ps ih =>
    have hvp := hv p (List.mem_cons_self p ps)
    by_cases hps : ps = []
    · subst hps
      simp only [runPayloadSizes, set_payload_size, if_pos hvp,
        List.getLast_singleton]
      exact applyTrace_configure_payload _ p
    · rw [List.getLast_cons hps]
      simp only [runPayloadSizes]
      exact ih _ _ hps fun q hq => hv q (List.mem_cons_of_mem p hq)

/-- C8 counterexample: set_padding called with the out-of-range value 256
does fail (the assert is violated), issues no bus write, but the cached
padding byte is overwritten with 256 before the assert fires: the cached
configuration is NOT identical before and after the failed call. -/
theorem set_padding_overwrites_before_failing :
    (set_padding st0 256).2.2 = false ∧
    (set_padding st0 256).2.1 = [] ∧
    st0.padding = 32 ∧
    (set_padding st0 256).1.padding = 256 := by
  refine ⟨?_, rfl, rfl, rfl⟩
  decide

/-- C8 amended: every range-validated setter other than set_padding
(channel, payload size, address width, CRC width, data rate) rejects an
out-of-range argument before any bus access and with the cached state
unchanged; set_padding also rejects without any bus access, but only
after overwriting the cached padding byte with the invalid argument. -/
theorem setters_validate_before_write (st : DriverState) :
    (∀ ch, 125 < ch → set_channel st ch = (st, [], false)) ∧
    (∀ p : Int, p < ACK_PAYLOAD ∨ MAX_PAYLOAD < p →
      set_payload_size st p = (st, [], false)) ∧
    (∀ n, n < 3 ∨ 5 < n → set_address_bytes st n = (st, [], false)) ∧
    (∀ n, n < 1 ∨ 2 < n → set_crc_bytes st n = (st, [], false)) ∧
    (∀ r bus, 2 < r → set_data_rate st r bus = (st, [], false)) ∧
    (∀ pad, 255 < pad →
      set_padding st pad = ({ st with padding := pad }, [], false)) := by
  refine ⟨?_, ?_, ?_, ?_, ?_, ?_⟩
  · intro ch h
    rw [set_channel, if_neg (by omega)]
  · intro p h
    rw [set_payload_size, if_neg]
    unfold ACK_PAYLOAD MAX_PAYLOAD at h ⊢
    omega
  · intro n h
    rw [set_address_bytes, if_neg (by omega)]
  · intro n h
    rw [set_crc_bytes, if_neg (by omega)]
  · intro r bus h
    rw [set_data_rate, if_neg]
    unfold RF24_250KBPS
    omega
  · intro pad h
    rw [set_padding]
    simp
    omega

/-- C9 counterexample: with dynamic payload mode cached, send accepts a
33-byte payload (outside 1-32), raises nothing, and writes the whole
33-byte payload to the chip in the W_TX_PAYLOAD frame. -/
theorem send_dynamic_oversize_is_written :
    (List.replicate 33 7).length = 33 ∧
    Action.xfer (W_TX_PAYLOAD :: List.replicate 33 7) ∈
      (send { st0 with payload_size := DYNAMIC_PAYLOAD } 0
        (List.replicate 33 7)).2 := by
  constructor
  · rfl
  · have h : ¬ MIN_PAYLOAD ≤
        ({ st0 with payload_size := DYNAMIC_PAYLOAD } : DriverState).payload_size := by
      decide
    simp [send, h, power_up_tx]

/-- C9 amended: in dynamic or ack-payload mode, send performs no length
validation at all: whatever the payload's length, the payload is passed
unmodified into the W_TX_PAYLOAD frame written to the chip. -/
theorem send_dynamic_passes_payload_unmodified (st : DriverState)
    (status : Nat) (data : List Nat)
    (h : st.payload_size < MIN_PAYLOAD) :
    Action.xfer (W_TX_PAYLOAD :: data) ∈ (send st status data).2 := by
  have h' : ¬ MIN_PAYLOAD ≤ st.payload_size := not_le.mpr h
  simp [send, h', power_up_tx]

/-! ### Witnesses: the claim theorems instantiated at concrete inputs -/

/-- C1 witness: sending the 3-byte payload [1, 2, 3] with fixed size 32
and padding byte 32 writes a 32-byte padded payload. -/
theorem send_fixed_payload_exact_width_witness :
    Action.xfer (W_TX_PAYLOAD :: make_fixed_width [1, 2, 3] 32 st0.padding) ∈
      (send st0 0 [1, 2, 3]).2 ∧
    (make_fixed_width [1, 2, 3] 32 st0.padding).length = 32 ∧
    make_fixed_width [1, 2, 3] 32 st0.padding =
      [1, 2, 3] ++ List.replicate 29 st0.padding := by
  obtain ⟨h1, h2, h3, _⟩ :=
    send_fixed_payload_exact_width st0 0 [1, 2, 3] 32 rfl (by norm_num)
      (by norm_num)
  exact ⟨h1, h2, by simpa using h3 (by norm_num)⟩

/-- C2 witness: dynamic, then fixed(16), then ack-payload leaves
DYNPD = 3 (pipes 0 and 1 dynamic) and FEATURE = 6 (EN_DPL and
EN_ACK_PAY), the values of the last call alone. -/
theorem payload_mode_last_call_wins_witness :
    (runPayloadSizes st0 (fun _ => []) [0, 16, -1]).2 DYNPD = [3] ∧
    (runPayloadSizes st0 (fun _ => []) [0, 16, -1]).2 FEATURE = [6] := by
  obtain ⟨ha, hb⟩ :=
    payload_mode_last_call_wins st0 (fun _ => []) [0, 16, -1] (by decide)
      (by decide)
  constructor
  · rw [ha]; decide
  · rw [hb]; decide

/-- C3 witness: the two power-up traces at the constructor-default
state, whose cached CRC bit is CRCO. -/
theorem power_up_trace_order_witness :
    (power_up_tx st0).2 =
      [Action.ce 0, writeRegAct CONFIG [EN_CRC ||| CRCO ||| PWR_UP],
       writeRegAct STATUS [RX_DR ||| TX_DS ||| MAX_RT], Action.ce 1] ∧
    (power_up_rx st0).2 =
      [Action.ce 0,
       writeRegAct CONFIG [EN_CRC ||| CRCO ||| PWR_UP ||| PRIM_RX],
       writeRegAct STATUS [RX_DR ||| TX_DS ||| MAX_RT], Action.ce 1] ∧
    (EN_CRC ||| CRCO ||| PWR_UP).testBit 3 = true ∧
    (EN_CRC ||| CRCO ||| PWR_UP).testBit 1 = true ∧
    ((EN_CRC ||| CRCO ||| PWR_UP).testBit 2 = true ↔ CRCO = CRCO) ∧
    (EN_CRC ||| CRCO ||| PWR_UP).testBit 0 = false ∧
    (EN_CRC ||| CRCO ||| PWR_UP ||| PRIM_RX).testBit 3 = true ∧
    (EN_CRC ||| CRCO ||| PWR_UP ||| PRIM_RX).testBit 1 = true ∧
    ((EN_CRC ||| CRCO ||| PWR_UP ||| PRIM_RX).testBit 2 = true ↔
      CRCO = CRCO) ∧
    (EN_CRC ||| CRCO ||| PWR_UP ||| PRIM_RX).testBit 0 = true :=
  power_up_trace_order st0 (Or.inr rfl)

/-- C4 witness: after power_up_rx is_sending reports false; with the
transmitting flag set and a status byte with TX_DS set (0x20),
is_sending clears the flag and reports false, as does the next call. -/
theorem is_sending_auto_rx_witness :
    (is_sending (power_up_rx st0).1 0).2 = false ∧
    (is_sending { st0 with power_tx := 1 } 32).2 = false ∧
    (is_sending { st0 with power_tx := 1 } 32).1.power_tx = 0 ∧
    (is_sending (is_sending { st0 with power_tx := 1 } 32).1 0).2 = false := by
  have h2 := (is_sending_auto_rx { st0 with power_tx := 1 } 32 0).2
      (by decide) (by decide)
  exact ⟨(is_sending_auto_rx st0 0 0).1, h2.1, h2.2.1, h2.2.2⟩

/-- C5 witness: moving from RF_SETUP byte 0xAB (power bits set) to
2 Mbps keeps bit 1 of the power field and encodes the rate bits. -/
theorem set_data_rate_rmw_witness :
    (set_data_rate_value 1 171).testBit 1 = (171 : Nat).testBit 1 ∧
    (set_data_rate_value 1 171).testBit 2 = (171 : Nat).testBit 2 ∧
    (set_data_rate_value 1 171).testBit 5 = decide (1 = RF24_250KBPS) ∧
    (set_data_rate_value 1 171).testBit 3 = decide (1 = RF24_2MBPS) :=
  ⟨(set_data_rate_rmw 1 171 (by norm_num)).1 1 (by norm_num) (by norm_num),
   (set_data_rate_rmw 1 171 (by norm_num)).1 2 (by norm_num) (by norm_num),
   (set_data_rate_rmw 1 171 (by norm_num)).2.1,
   (set_data_rate_rmw 1 171 (by norm_num)).2.2.1⟩

/-- C7 witness: with a bus whose every reply byte is 3, the dynamic-mode
probe reports width 3 and get_payload returns 3 bytes, probing before
reading. -/
theorem get_payload_width_witness :
    (get_payload { st0 with payload_size := 0 }
      (fun l => l.map fun _ => 3)).1.length = 3 ∧
    (get_payload { st0 with payload_size := 0 }
      (fun l => l.map fun _ => 3)).2 =
      Action.xfer [R_RX_PL_WID, 0] ::
      Action.xfer (R_RX_PAYLOAD :: List.replicate 3 0) ::
      [Action.ce 0, writeRegAct STATUS [RX_DR], Action.ce 1] := by
  obtain ⟨h1, h2⟩ := (get_payload_width { st0 with payload_size := 0 }
      (fun l => l.map fun _ => 3) (fun l => by simp)).1 (by decide)
  constructor
  · rw [h1]; rfl
  · rw [h2]; rfl

/-- C8 witness for the amended claim: one out-of-range call per setter. -/
theorem setters_validate_before_write_witness :
    set_channel st0 126 = (st0, [], false) ∧
    set_payload_size st0 33 = (st0, [], false) ∧
    set_address_bytes st0 6 = (st0, [], false) ∧
    set_crc_bytes st0 3 = (st0, [], false) ∧
    set_data_rate st0 3 (fun l => l) = (st0, [], false) ∧
    set_padding st0 256 = ({ st0 with padding := 256 }, [], false) := by
  obtain ⟨h1, h2, h3, h4, h5, h6⟩ := setters_validate_before_write st0
  exact ⟨h1 126 (by omega), h2 33 (by decide), h3 6 (by omega),
    h4 3 (by omega), h5 3 _ (by omega), h6 256 (by omega)⟩

/-- C9 witness for the amended claim: in dynamic mode a 3-byte payload
is written unmodified. -/
theorem send_dynamic_passes_payload_unmodified_witness :
    ({ st0 with payload_size := DYNAMIC_PAYLOAD } : DriverState).payload_size <
      MIN_PAYLOAD ∧
    Action.xfer (W_TX_PAYLOAD :: [1, 2, 3]) ∈
      (send { st0 with payload_size := DYNAMIC_PAYLOAD } 0 [1, 2, 3]).2 :=
  ⟨by decide,
   send_dynamic_passes_payload_unmodified _ 0 [1, 2, 3] (by decide)⟩

/-- C10 witness: switching to two CRC bytes touches nothing but the
cached bit, and the next power_down / power_up_rx / power_up_tx write
CONFIG with CRCO included. -/
theorem set_crc_bytes_cached_only_witness :
    (set_crc_bytes st0 2).2.1 = [] ∧
    (set_crc_bytes st0 2).1 = { st0 with crc_bytes := CRCO } ∧
    (power_down (set_crc_bytes st0 2).1).2 =
      [Action.ce 0, writeRegAct CONFIG [EN_CRC ||| CRCO]] ∧
    (power_up_rx (set_crc_bytes st0 2).1).2.get? 1 =
      some (writeRegAct CONFIG [EN_CRC ||| CRCO ||| PWR_UP ||| PRIM_RX]) ∧
    (power_up_tx (set_crc_bytes st0 2).1).2.get? 1 =
      some (writeRegAct CONFIG [EN_CRC ||| CRCO ||| PWR_UP]) := by
  simpa using set_crc_bytes_cached_only st0 2 (by norm_num) (by norm_num)

end NRF24
